import Mathlib

/-!
Verification of the Clash Royale descriptive-statistics pipeline
(`proyecto_ml_clashroyale`).

The pipeline's node functions operate on pandas DataFrames.  We embed a
DataFrame shallowly as a list of column labels together with a list of rows,
each row a list of cell values.  A cell is either null (pandas `NaN`/`None`),
an integer, or a string; the numeric columns relevant to the analyzers hold
integers.  Python floats produced by the analyzers (percentages, averages)
are modelled as rationals: every concrete value these functions produce on
the inputs below is far from any binary-float rounding boundary, so the
rational model and the float computation round identically.

Functions that can raise a Python exception are embedded as `Except PyError`
valued functions; a `.error` result models a raised exception, and the
variants record which exception the source would raise.
-/

deriving instance DecidableEq for Except

attribute [local semireducible] Rat.add Rat.sub Rat.mul Rat.inv

namespace ClashRoyale

/-- A pandas cell value: null (`NaN`/`None`), an integer, or a string. -/
inductive Value where
  | null
  | int (n : Int)
  | str (s : String)
deriving DecidableEq

/-- A pandas DataFrame: ordered column labels and rows of cells.
A well-formed frame has every row of length `columns.length`. -/
structure DataFrame where
  columns : List String
  rows : List (List Value)
deriving DecidableEq

/-- The Python exceptions the embedded functions can raise. -/
inductive PyError where
  | indexError
  | keyError
  | zeroDivisionError
  | valueError
deriving DecidableEq

/-- `startsWithL pat l`: `pat` is a prefixed segment of `l`. -/
def startsWithL {α} [BEq α] : List α → List α → Bool
  | [], _ => true
  | _ :: _, [] => false
  | a :: as, b :: bs => a == b && startsWithL as bs

/-- `subListOf pat l`: `pat` occurs contiguously inside `l`. -/
def subListOf {α} [BEq α] : List α → List α → Bool
  | pat, [] => pat.isEmpty
  | pat, b :: bs => startsWithL pat (b :: bs) || subListOf pat bs

/-- Python's substring test `pat in s`. -/
def containsSub (s pat : String) : Bool :=
  subListOf pat.toList s.toList

/-- Python's `s.lower()` as a character list (`String.toLower` is opaque to
kernel reduction, so we lower character-wise). -/
def lowerChars (s : String) : List Char :=
  s.toList.map Char.toLower

/-- Python's `pat in s.lower()` for an ASCII-lowercase `pat`. -/
def containsSubLower (s pat : String) : Bool :=
  subListOf pat.toList (lowerChars s)

/-- `series.dropna()`: drop null cells from a column. -/
def dropna (l : List Value) : List Value :=
  l.filter (fun v => v != Value.null)

/-- `df[c]` as a list of cells; `[]` when the label is absent.
With duplicate labels pandas returns a sub-frame; as in the pipeline's data,
we assume labels are unique and take the first occurrence. -/
def getColD (df : DataFrame) (c : String) : List Value :=
  match df.columns.findIdx? (fun x => x == c) with
  | some i => df.rows.map (fun r => r.getD i Value.null)
  | none => []

/-- Rearrange a row from an old column layout to a new one, filling absent
columns with null — the cell-level effect of `pd.concat` on frames with
differing columns. -/
def reindexRow (oldCols newCols : List String) (row : List Value) : List Value :=
  newCols.map (fun c =>
    match oldCols.findIdx? (fun x => x == c) with
    | some i => row.getD i Value.null
    | none => Value.null)

/-- `pd.concat(dfs, ignore_index=True)`: the column set is the union of the
frames' columns in order of first appearance; rows are all of the first
frame's rows, then the second's, and so on, reindexed to the unified
columns. -/
def concatAll (dfs : List DataFrame) : DataFrame :=
  let cols := dfs.foldl (fun acc d => acc ++ d.columns.filter (fun c => !acc.contains c)) []
  ⟨cols, dfs.flatMap (fun d => d.rows.map (reindexRow d.columns cols))⟩

/-- `pd.concat([a, b, c], ignore_index=True)`. -/
def concat3 (a b c : DataFrame) : DataFrame := concatAll [a, b, c]

/-- `business_understanding_nodes.clean_and_rename_first_column`:
copies the frame and renames the first column's label to `battle_id` via
`df.rename(columns={first_column: 'battle_id'})`.  pandas `rename` is
label-based, so every column sharing the first column's label is renamed.
`df.columns[0]` raises `IndexError` on a zero-column frame. -/
def clean_and_rename_first_column (df : DataFrame) : Except PyError DataFrame :=
  match df.columns with
  | [] => .error .indexError
  | first :: rest =>
      .ok ⟨(first :: rest).map (fun c => if c = first then "battle_id" else c), df.rows⟩

/-- Occurrence counter over a list, fuel-indexed to make the recursion
structural (the fuel is always instantiated with the list's length, which
suffices).  Models Python `collections.Counter`: keys in first-occurrence
order, each paired with its number of occurrences in the whole list. -/
def countOccF {α} [DecidableEq α] : Nat → List α → List (α × Nat)
  | _, [] => []
  | 0, _ :: _ => []
  | fuel + 1, a :: rest =>
      (a, 1 + rest.count a) :: countOccF fuel (rest.filter (fun b => b != a))

/-- `collections.Counter(l)` as an association list in first-insertion order. -/
def countOcc {α} [DecidableEq α] (l : List α) : List (α × Nat) :=
  countOccF l.length l

/-- Insert an entry into a count-descending list, after all entries of
greater-or-equal count (so earlier-inserted entries win ties). -/
def insertByCount {α} (p : α × Nat) : List (α × Nat) → List (α × Nat)
  | [] => [p]
  | q :: rest => if q.2 < p.2 then p :: q :: rest else q :: insertByCount p rest

/-- Stable sort of counter entries by descending count (ties keep
first-insertion order), as Python's stable `sorted` underlying
`Counter.most_common`. -/
def mostCommonSort {α} (l : List (α × Nat)) : List (α × Nat) :=
  l.foldl (fun acc p => insertByCount p acc) []

/-- `Counter(l).most_common(n)`. -/
def mostCommon {α} [DecidableEq α] (l : List α) (n : Nat) : List (α × Nat) :=
  (mostCommonSort (countOcc l)).take n

/-- Python's `set(l)` realised as the list of first occurrences. -/
def dedupSeen {α} [DecidableEq α] : List α → List α → List α
  | [], _ => []
  | a :: rest, seen =>
      if seen.contains a then dedupSeen rest seen else a :: dedupSeen rest (a :: seen)

/-- `len(set(l))`. -/
def setSize {α} [DecidableEq α] (l : List α) : Nat :=
  (dedupSeen l []).length

/-- Round-half-to-even to an integer, Python's `round` convention. -/
def roundHalfEven (q : Rat) : Int :=
  let f := Rat.floor q
  let frac := q - (f : Rat)
  if frac < 1 / 2 then f
  else if 1 / 2 < frac then f + 1
  else if f % 2 = 0 then f else f + 1

/-- Python's `round(q, 2)`. -/
def round2 (q : Rat) : Rat :=
  ((roundHalfEven (q * 100) : Int) : Rat) / 100

/-- `dict(zip(ks, vs)).get(k, dflt)`: Python dict construction is
last-write-wins on duplicate keys, so lookup scans from the end. -/
def dictGetD (d : List (Value × Value)) (k : Value) (dflt : Value) : Value :=
  match d.reverse.find? (fun p => p.1 == k) with
  | some p => p.2
  | none => dflt

/-- Python `f"...{v}..."` rendering of a cell value. -/
def valueRepr : Value → String
  | .null => "None"
  | .int n => toString n
  | .str s => s

/-- The card-id column heuristic shared by the analyzers
(`eda_nodes.py` lines 111 and 203):
`[col for col in all_combates.columns if 'card' in col.lower() and 'id' in col.lower()]`. -/
def cardColumnsOf (cols : List String) : List String :=
  cols.filter (fun c => containsSubLower c "card" && containsSubLower c "id")

/-- The `card_usage_stats` sub-dictionary of `analyze_most_used_cards`. -/
structure CardUsageStats where
  total_card_uses : Nat
  unique_cards : Nat
  average_uses_per_card : Rat
deriving DecidableEq

/-- One entry of `top_cards` in `analyze_most_used_cards`. -/
structure TopCardEntry where
  card_id : Value
  card_name : Value
  count : Nat
  percentage : Rat
deriving DecidableEq

/-- The normal-schema result of `analyze_most_used_cards`. -/
structure MostUsedCardsResult where
  card_usage_stats : CardUsageStats
  top_cards : List TopCardEntry
  card_columns_found : List String
  card_mapping_used : Bool
deriving DecidableEq

/-- `analyze_most_used_cards` returns either its normal schema or the
error-marker dictionary `{'error': ...}` (a normal return, not a raise). -/
inductive CardsOutcome where
  | errorMarker (msg : String)
  | normal (r : MostUsedCardsResult)
deriving DecidableEq

/-- `eda_nodes.analyze_most_used_cards`.  Concatenates the three cleaned
frames, finds card-id columns by the substring heuristic, flattens the
non-null cells of those columns into one multiset, and reports totals and
the top 20 with catalog-resolved names and percentage shares.  When the
heuristic matches no column the error-marker dictionary is returned; when
the matched columns hold no non-null value, building the result dictionary
evaluates `total_card_uses / unique_cards` as `0 / 0` and raises
`ZeroDivisionError`. -/
def analyze_most_used_cards (d1 d2 d3 cml : DataFrame) : Except PyError CardsOutcome :=
  let all := concat3 d1 d2 d3
  let card_columns := cardColumnsOf all.columns
  if card_columns.isEmpty then
    .ok (.errorMarker "No se encontraron columnas de cartas")
  else
    let all_cards := card_columns.flatMap (fun c => dropna (getColD all c))
    let total_card_uses := all_cards.length
    let unique_cards := (countOcc all_cards).length
    let top_cards := mostCommon all_cards 20
    let card_id_to_name : List (Value × Value) :=
      if cml.columns.contains "team.card1.id" && cml.columns.contains "team.card1.name" then
        (getColD cml "team.card1.id").zip (getColD cml "team.card1.name")
      else []
    let top_cards_with_percentage : List TopCardEntry :=
      top_cards.map (fun p =>
        { card_id := p.1
          card_name := dictGetD card_id_to_name p.1 (.str ("Carta_" ++ valueRepr p.1))
          count := p.2
          percentage := round2 ((p.2 : Rat) / (total_card_uses : Rat) * 100) })
    if unique_cards = 0 then
      .error .zeroDivisionError
    else
      .ok (.normal
        { card_usage_stats :=
            { total_card_uses := total_card_uses
              unique_cards := unique_cards
              average_uses_per_card := round2 ((total_card_uses : Rat) / (unique_cards : Rat)) }
          top_cards := top_cards_with_percentage
          card_columns_found := card_columns
          card_mapping_used := !card_id_to_name.isEmpty })

/-- One entry of a win-condition top list in `analyze_win_conditions_usage`. -/
structure WcEntry where
  card_id : Value
  card_name : Value
  count : Nat
  percentage : Rat
deriving DecidableEq

/-- The `usage_stats` sub-dictionary of `analyze_win_conditions_usage`. -/
structure WcUsageStats where
  total_winner_wc_uses : Nat
  total_loser_wc_uses : Nat
  total_wc_uses : Nat
  unique_win_conditions : Nat
  total_win_conditions_available : Nat
deriving DecidableEq

/-- The normal-schema result of `analyze_win_conditions_usage`. -/
structure WcResult where
  winner_win_conditions : List WcEntry
  loser_win_conditions : List WcEntry
  overall_win_conditions : List WcEntry
  usage_stats : WcUsageStats
deriving DecidableEq

/-- `analyze_win_conditions_usage` returns either its normal schema or the
error-marker dictionary `{'error': ...}`. -/
inductive WcOutcome where
  | errorMarker (msg : String)
  | normal (r : WcResult)
deriving DecidableEq

/-- A top-20 list with names and percentages, as built by the three
per-multiset loops of `analyze_win_conditions_usage`:
`percentage = (count / total) * 100 if total > 0 else 0`, rounded to two
decimals. -/
def topWithPct (l : List Value) (total : Nat) (resolve : Value → Value) : List WcEntry :=
  (mostCommon l 20).map (fun p =>
    { card_id := p.1
      card_name := resolve p.1
      count := p.2
      percentage := round2 (if 0 < total then (p.2 : Rat) / (total : Rat) * 100 else 0) })

/-- The result dictionary of `analyze_win_conditions_usage`, as assembled
from the winner-side and loser-side win-condition multisets. -/
def wcReport (winner_wcs loser_wcs : List Value) (resolve : Value → Value)
    (avail : Nat) : WcResult :=
  { winner_win_conditions := topWithPct winner_wcs winner_wcs.length resolve
    loser_win_conditions := topWithPct loser_wcs loser_wcs.length resolve
    overall_win_conditions :=
      topWithPct (winner_wcs ++ loser_wcs) (winner_wcs ++ loser_wcs).length resolve
    usage_stats :=
      { total_winner_wc_uses := winner_wcs.length
        total_loser_wc_uses := loser_wcs.length
        total_wc_uses := (winner_wcs ++ loser_wcs).length
        unique_win_conditions := (countOcc (winner_wcs ++ loser_wcs)).length
        total_win_conditions_available := avail } }

/-- `eda_nodes.analyze_win_conditions_usage`.  Uses the same card-column
heuristic as `analyze_most_used_cards`, splits the matched columns into
winner/loser sides by case-sensitive substring match, keeps only values in
the win-condition id set, and reports the three top-20 lists (winner, loser,
combined), each with percentages over its own total.  Names resolve through
the WinConditionCatalog, then the CardCatalog, then a synthesized label. -/
def analyze_win_conditions_usage (d1 d2 d3 wincons cml : DataFrame) :
    Except PyError WcOutcome :=
  let all := concat3 d1 d2 d3
  let win_condition_ids : List Value :=
    if wincons.columns.contains "card_id" then getColD wincons "card_id" else []
  let wc_id_to_name : List (Value × Value) :=
    if wincons.columns.contains "card_id" && wincons.columns.contains "card_name" then
      (getColD wincons "card_id").zip (getColD wincons "card_name")
    else []
  let card_id_to_name : List (Value × Value) :=
    if cml.columns.contains "team.card1.id" && cml.columns.contains "team.card1.name" then
      (getColD cml "team.card1.id").zip (getColD cml "team.card1.name")
    else []
  let card_columns := cardColumnsOf all.columns
  if card_columns.isEmpty then
    .ok (.errorMarker "No se encontraron columnas de cartas")
  else
    let winner_win_conditions :=
      (card_columns.filter (fun c => containsSub c "winner")).flatMap
        (fun c => (dropna (getColD all c)).filter (fun v => win_condition_ids.contains v))
    let loser_win_conditions :=
      (card_columns.filter (fun c => containsSub c "loser")).flatMap
        (fun c => (dropna (getColD all c)).filter (fun v => win_condition_ids.contains v))
    let resolve : Value → Value := fun id =>
      dictGetD wc_id_to_name id
        (dictGetD card_id_to_name id (Value.str ("WinCondition_" ++ valueRepr id)))
    .ok (.normal
      (wcReport winner_win_conditions loser_win_conditions resolve
        (setSize win_condition_ids)))

/-- Per-tier statistics block of `analyze_rarity_distributions`.  pandas
`mean`/`median`/`std`/`min`/`max` skip nulls.  `std` is the sample standard
deviation (ddof = 1); an irrational square root cannot live in our rational
model, so the block stores its square `std_sq` (`none` models the `NaN` std
of a singleton column) — the represented information is the same because
squaring is injective on nonnegative reals.  `distribution` is
`value_counts().head(10)`: values by descending occurrence count. -/
structure RarityStats where
  mean : Rat
  median : Rat
  std_sq : Option Rat
  min : Int
  max : Int
  distribution : List (Int × Nat)
deriving DecidableEq

/-- One tier of `winner_vs_loser_comparison` in
`analyze_rarity_distributions`. -/
structure CompStats where
  winner_avg : Rat
  loser_avg : Rat
  difference : Rat
deriving DecidableEq

/-- The result of `analyze_rarity_distributions`. -/
structure RarityResult where
  winner_rarity_distribution : List (String × RarityStats)
  loser_rarity_distribution : List (String × RarityStats)
  winner_vs_loser_comparison : List (String × CompStats)
  total_records_analyzed : Nat
deriving DecidableEq

/-- The integers among a column's cells (the rarity-count columns are
integer columns; nulls are skipped as pandas statistics do). -/
def intsOf (l : List Value) : List Int :=
  l.filterMap (fun v => match v with | .int n => some n | _ => none)

/-- Insert into an ascending list. -/
def insertSorted (x : Int) : List Int → List Int
  | [] => [x]
  | y :: rest => if x ≤ y then x :: y :: rest else y :: insertSorted x rest

/-- Ascending sort. -/
def sortInts (l : List Int) : List Int :=
  l.foldr insertSorted []

/-- pandas `Series.mean()` over the non-null values. -/
def meanQ (l : List Int) : Rat :=
  ((l.sum : Int) : Rat) / (l.length : Rat)

/-- pandas `Series.median()`: middle of the sorted values, or the mean of
the two middles. -/
def medianQ (l : List Int) : Rat :=
  let s := sortInts l
  let n := s.length
  if n % 2 = 1 then ((s.getD (n / 2) 0 : Int) : Rat)
  else (((s.getD (n / 2 - 1) 0 + s.getD (n / 2) 0 : Int) : Rat)) / 2

/-- The square of pandas `Series.std()` (sample variance, ddof = 1);
`none` when fewer than two values (pandas yields `NaN`). -/
def sampleVarQ (l : List Int) : Option Rat :=
  if l.length < 2 then none
  else
    let m := meanQ l
    some ((l.map (fun x => ((x : Int) : Rat) - m) |>.map (fun d => d * d)).sum
      / ((l.length : Rat) - 1))

/-- One `winner_rarity_stats[rarity_type]` block.  `int(series.min())` on an
all-null or empty column is `int(NaN)`, which raises `ValueError`. -/
def colStats (vals : List Value) : Except PyError RarityStats :=
  let nums := intsOf vals
  match nums.min?, nums.max? with
  | some mn, some mx =>
      .ok { mean := meanQ nums
            median := medianQ nums
            std_sq := sampleVarQ nums
            min := mn
            max := mx
            distribution := (mostCommonSort (countOcc nums)).take 10 }
  | _, _ => .error .valueError

/-- `col.split('.')[1]`. -/
def rarityTypeOf (c : String) : String :=
  (c.splitOn ".").getD 1 ""

/-- The per-column loop of `analyze_rarity_distributions`: a stats block for
each listed column present in the combined frame. -/
def statsList (all : DataFrame) : List String → Except PyError (List (String × RarityStats))
  | [] => .ok []
  | c :: rest =>
      if all.columns.contains c then do
        let s ← colStats (getColD all c)
        let r ← statsList all rest
        return (rarityTypeOf c, s) :: r
      else statsList all rest

/-- The winner-side rarity column list of `analyze_rarity_distributions`. -/
def winner_rarity_cols : List String :=
  ["winner.common.count", "winner.rare.count", "winner.epic.count", "winner.legendary.count"]

/-- The loser-side rarity column list of `analyze_rarity_distributions`. -/
def loser_rarity_cols : List String :=
  ["loser.common.count", "loser.rare.count", "loser.epic.count", "loser.legendary.count"]

/-- The `winner_vs_loser_comparison` loop of `analyze_rarity_distributions`:
mean difference per rarity tier when both side columns are present. -/
def compStatsList (all : DataFrame) : List (String × CompStats) :=
  ["common", "rare", "epic", "legendary"].filterMap (fun rarity =>
    let wcol := "winner." ++ rarity ++ ".count"
    let lcol := "loser." ++ rarity ++ ".count"
    if all.columns.contains wcol && all.columns.contains lcol then
      let wavg := meanQ (intsOf (getColD all wcol))
      let lavg := meanQ (intsOf (getColD all lcol))
      some (rarity, { winner_avg := wavg, loser_avg := lavg, difference := wavg - lavg })
    else none)

/-- `eda_nodes.analyze_rarity_distributions`: per-tier statistics for each
side over the concatenated frames, plus the winner-vs-loser mean deltas and
the total row count. -/
def analyze_rarity_distributions (d1 d2 d3 : DataFrame) : Except PyError RarityResult := do
  let all := concat3 d1 d2 d3
  let w ← statsList all winner_rarity_cols
  let l ← statsList all loser_rarity_cols
  return { winner_rarity_distribution := w
           loser_rarity_distribution := l
           winner_vs_loser_comparison := compStatsList all
           total_records_analyzed := all.rows.length }

/-- One sentence of the `insights` list of `generate_eda_summary`, with the
data that is interpolated into the Spanish sentence (the literal text around
the data carries no further logic, so it is abstracted here). -/
inductive Insight where
  | datasetSize (n : Nat)
  | uniqueCardsCount (n : Nat)
  | totalWinConditions (n : Nat)
  | mostPopularCard (name : Value) (pct : Rat)
  | topWinCondition (name : Value) (pct : Rat)
  | winnersUseMore (rarity : String) (diff : Rat)
  | losersUseMore (rarity : String) (diff : Rat)
deriving DecidableEq

/-- The summary dictionary of `generate_eda_summary`. -/
structure EdaSummary where
  dataset_size : Nat
  most_popular_cards : List Value
  total_unique_cards : Nat
  total_win_conditions : Nat
  rarity_insights : List Insight
  insights : List Insight
deriving DecidableEq

/-- Is this the error-marker outcome of the Card Usage Analyzer
(the `{'error': ...}` dictionary, which lacks `top_cards` and
`card_usage_stats`)? -/
def CardsOutcome.isMarker : CardsOutcome → Bool
  | .errorMarker _ => true
  | .normal _ => false

/-- Is this the error-marker outcome of the Win-Condition Usage Analyzer
(the `{'error': ...}` dictionary, which lacks `usage_stats` and
`overall_win_conditions`)? -/
def WcOutcome.isMarker : WcOutcome → Bool
  | .errorMarker _ => true
  | .normal _ => false

/-- `eda_nodes.generate_eda_summary`.  Every access to the card-usage and
win-condition inputs is guarded by the source's `'key' in dict` membership
tests, which for the error-marker dictionaries fail, so those fields fall
back to `[]`/`0`; the rarity input always carries its keys.  The source's
`rarity_insights` entry is created as `{}` and never filled. -/
def generate_eda_summary (rar : RarityResult) (mu : CardsOutcome) (wcu : WcOutcome) :
    EdaSummary :=
  let most_popular_cards : List Value :=
    match mu with
    | .normal r => (r.top_cards.take 5).map (fun e => e.card_name)
    | .errorMarker _ => []
  let total_unique_cards : Nat :=
    match mu with
    | .normal r => r.card_usage_stats.unique_cards
    | .errorMarker _ => 0
  let total_win_conditions : Nat :=
    match wcu with
    | .normal r => r.usage_stats.unique_win_conditions
    | .errorMarker _ => 0
  let base : List Insight :=
    [.datasetSize rar.total_records_analyzed,
     .uniqueCardsCount total_unique_cards,
     .totalWinConditions total_win_conditions]
  let withTopCard : List Insight :=
    base ++
      match mu with
      | .normal r =>
          match r.top_cards with
          | e :: _ => [.mostPopularCard e.card_name e.percentage]
          | [] => []
      | .errorMarker _ => []
  let withTopWc : List Insight :=
    withTopCard ++
      match wcu with
      | .normal r =>
          match r.overall_win_conditions with
          | e :: _ => [.topWinCondition e.card_name e.percentage]
          | [] => []
      | .errorMarker _ => []
  let rarityIns : List Insight :=
    rar.winner_vs_loser_comparison.filterMap (fun p =>
      if 0 < p.2.difference then some (.winnersUseMore p.1 p.2.difference)
      else if p.2.difference < 0 then some (.losersUseMore p.1 (abs p.2.difference))
      else none)
  { dataset_size := rar.total_records_analyzed
    most_popular_cards := most_popular_cards
    total_unique_cards := total_unique_cards
    total_win_conditions := total_win_conditions
    rarity_insights := []
    insights := withTopWc ++ rarityIns }

/-- The column whitelist of
`data_preparation_nodes.select_relevant_columns` (29 entries). -/
def relevant_columns : List String :=
  ["battle_id",
   "winner.tag",
   "loser.tag",
   "winner.card1.id", "winner.card2.id", "winner.card3.id", "winner.card4.id",
   "winner.card5.id", "winner.card6.id", "winner.card7.id", "winner.card8.id",
   "winner.cards.list",
   "winner.common.count", "winner.rare.count", "winner.epic.count", "winner.legendary.count",
   "loser.card1.id", "loser.card2.id", "loser.card3.id", "loser.card4.id",
   "loser.card5.id", "loser.card6.id", "loser.card7.id", "loser.card8.id",
   "loser.cards.list",
   "loser.common.count", "loser.rare.count", "loser.epic.count", "loser.legendary.count"]

/-- `dataset[cols]`: projection onto the listed columns, raising `KeyError`
when one of them is absent. -/
def projectCols (df : DataFrame) (cols : List String) : Except PyError DataFrame :=
  if cols.all (fun c => df.columns.contains c) then
    .ok ⟨cols, df.rows.map (reindexRow df.columns cols)⟩
  else .error .keyError

/-- The `{'combates1': ..., 'combates2': ..., 'combates3': ...}` dictionary
produced by `select_relevant_columns`. -/
structure SelectedDatasets where
  combates1 : DataFrame
  combates2 : DataFrame
  combates3 : DataFrame
deriving DecidableEq

/-- `data_preparation_nodes.select_relevant_columns`: each frame is
projected onto the whitelist columns it actually has (absent ones are only
logged). -/
def select_relevant_columns (d1 d2 d3 : DataFrame) : Except PyError SelectedDatasets := do
  let s1 ← projectCols d1 (relevant_columns.filter (fun c => d1.columns.contains c))
  let s2 ← projectCols d2 (relevant_columns.filter (fun c => d2.columns.contains c))
  let s3 ← projectCols d3 (relevant_columns.filter (fun c => d3.columns.contains c))
  return ⟨s1, s2, s3⟩

/-- `data_preparation_nodes.combine_datasets`:
`pd.concat([combates1, combates2, combates3], ignore_index=True)`. -/
def combine_datasets (sd : SelectedDatasets) : DataFrame :=
  concat3 sd.combates1 sd.combates2 sd.combates3

/-- A 1-row battle table of the end-to-end scenario: unlabeled leading
column (pandas names it `Unnamed: 0`) holding the battle id, and
`winner.card1.id = 99`. -/
def c1_table (bid : String) : DataFrame :=
  ⟨["Unnamed: 0", "winner.card1.id"], [[.str bid, .int 99]]⟩

/-- The CardCatalog of the end-to-end scenario, mapping id 99 to `Knight`. -/
def c1_catalog : DataFrame :=
  ⟨["team.card1.id", "team.card1.name"], [[.int 99, .str "Knight"]]⟩

/-- The sum of the unrounded percentage values `count / total * 100` over a
report's entries. -/
def unroundedPctSum (entries : List WcEntry) (total : Nat) : Rat :=
  (entries.map (fun e => (e.count : Rat) / (total : Rat) * 100)).sum

/-- The sum of the reported (2-decimal-rounded) percentage fields of a
report's entries. -/
def reportedPctSum (l : List WcEntry) : Rat :=
  (l.map (fun e => e.percentage)).sum

/-- The reported percentage sum of the winner-side report, `0` when the
analyzer did not return its normal schema. -/
def winnerReportedPctSum : Except PyError WcOutcome → Rat
  | .ok (.normal r) => reportedPctSum r.winner_win_conditions
  | _ => 0

/-- The spec's wording of the card-id column heuristic: the name,
lowercased, contains both the substring `card` and the substring `id`. -/
def specCardIdColumn (c : String) : Prop :=
  containsSubLower c "card" = true ∧ containsSubLower c "id" = true

/-- A frame with no columns and no rows (`pd.DataFrame()`). -/
def emptyFrame : DataFrame := ⟨[], []⟩

/-- One battle row whose six winner card slots hold the distinct ids 1..6 —
six win-condition occurrences of one use each. -/
def c4_battles : DataFrame :=
  ⟨["battle_id", "winner.card1.id", "winner.card2.id", "winner.card3.id",
    "winner.card4.id", "winner.card5.id", "winner.card6.id"],
   [[.str "B1", .int 1, .int 2, .int 3, .int 4, .int 5, .int 6]]⟩

/-- A WinConditionCatalog declaring the ids 1..6 as win conditions. -/
def c4_wincons : DataFrame :=
  ⟨["card_id", "card_name"],
   [[.int 1, .str "W1"], [.int 2, .str "W2"], [.int 3, .str "W3"],
    [.int 4, .str "W4"], [.int 5, .str "W5"], [.int 6, .str "W6"]]⟩

/-- A frame with one card-id column and no rows. -/
def c4w_frame : DataFrame := ⟨["winner.card1.id"], []⟩

/-- The result `analyze_win_conditions_usage` produces on three empty
`c4w_frame` batches and empty catalogs. -/
def c4w_r : WcResult :=
  wcReport [] []
    (fun id => dictGetD [] id (dictGetD [] id (Value.str ("WinCondition_" ++ valueRepr id)))) 0

/-- A rarity result with no comparison entries and zero records. -/
def c5_rar : RarityResult := ⟨[], [], [], 0⟩

/-- The error-marker outcome of the Card Usage Analyzer. -/
def c5_mu : CardsOutcome := .errorMarker "No se encontraron columnas de cartas"

/-- The error-marker outcome of the Win-Condition Usage Analyzer. -/
def c5_wcu : WcOutcome := .errorMarker "No se encontraron columnas de cartas"

/-- A one-column battle frame whose only card-id column is entirely null. -/
def c9_frame : DataFrame := ⟨["winner.card1.id"], [[Value.null]]⟩

theorem filter_ne_length {α} [DecidableEq α] (a : α) (l : List α) :
    (l.filter (fun b => b != a)).length + l.count a = l.length := by
  induction l with
  | nil => rfl
  | cons x xs ih =>
    by_cases hx : x = a
    · subst hx
      simp only [List.filter_cons, bne_self_eq_false, if_false, List.count_cons,
        beq_self_eq_true, if_true, List.length_cons, Bool.false_eq_true]
      omega
    · have hb : (x != a) = true := by simpa using hx
      have hc : (x == a) = false := by simpa using hx
      simp only [List.filter_cons, hb, if_true, List.count_cons, hc, List.length_cons,
        if_false, Bool.false_eq_true]
      omega

theorem countOccF_snd_sum {α} [DecidableEq α] :
    ∀ (fuel : Nat) (l : List α), l.length ≤ fuel →
      ((countOccF fuel l).map (fun p => p.2)).sum = l.length
  | _, [], _ => by simp [countOccF]
  | 0, a :: rest, h => by simp at h
  | fuel + 1, a :: rest, h => by
    have hr : (rest.filter (fun b => b != a)).length ≤ fuel := by
      have h1 := List.length_filter_le (fun b => b != a) rest
      simp only [List.length_cons] at h
      omega
    have ih := countOccF_snd_sum fuel (rest.filter (fun b => b != a)) hr
    have hk := filter_ne_length a rest
    simp only [countOccF, List.map_cons, List.sum_cons, ih, List.length_cons]
    omega

theorem countOcc_snd_sum {α} [DecidableEq α] (l : List α) :
    ((countOcc l).map (fun p => p.2)).sum = l.length :=
  countOccF_snd_sum l.length l (Nat.le_refl _)

theorem insertByCount_snd_sum {α} (p : α × Nat) (l : List (α × Nat)) :
    ((insertByCount p l).map (fun q => q.2)).sum = p.2 + (l.map (fun q => q.2)).sum := by
  induction l with
  | nil => simp [insertByCount]
  | cons q rest ih =>
    simp only [insertByCount]
    by_cases hq : q.2 < p.2
    · simp [hq]
    · simp only [hq, if_false, List.map_cons, List.sum_cons, ih]
      omega

theorem foldl_insert_snd_sum {α} (l acc : List (α × Nat)) :
    ((l.foldl (fun acc p => insertByCount p acc) acc).map (fun q => q.2)).sum
      = (acc.map (fun q => q.2)).sum + (l.map (fun q => q.2)).sum := by
  induction l generalizing acc with
  | nil => simp
  | cons p rest ih =>
    simp only [List.foldl_cons, ih, insertByCount_snd_sum, List.map_cons, List.sum_cons]
    omega

theorem mostCommonSort_snd_sum {α} (l : List (α × Nat)) :
    ((mostCommonSort l).map (fun q => q.2)).sum = (l.map (fun q => q.2)).sum := by
  simpa [mostCommonSort] using foldl_insert_snd_sum l []

theorem sum_take_le {α} (f : α → Nat) (l : List α) (n : Nat) :
    ((l.take n).map f).sum ≤ (l.map f).sum := by
  conv_rhs => rw [← List.take_append_drop n l]
  rw [List.map_append, List.sum_append]
  exact Nat.le_add_right _ _

theorem mostCommon_counts_le {α} [DecidableEq α] (l : List α) (n : Nat) :
    ((mostCommon l n).map (fun q => q.2)).sum ≤ l.length := by
  calc ((mostCommon l n).map (fun q => q.2)).sum
      ≤ ((mostCommonSort (countOcc l)).map (fun q => q.2)).sum :=
        sum_take_le _ _ _
    _ = ((countOcc l).map (fun q => q.2)).sum := mostCommonSort_snd_sum _
    _ = l.length := countOcc_snd_sum l

theorem sum_map_div_mul (counts : List Nat) (T : Rat) :
    (counts.map (fun (c : Nat) => (c : Rat) / T * 100)).sum = ((counts.sum : Nat) : Rat) / T * 100 := by
  induction counts with
  | nil => simp
  | cons c rest ih =>
    rw [List.map_cons, List.sum_cons, ih, List.sum_cons, Nat.cast_add, add_div, add_mul]

theorem pct_sum_le_100 (counts : List Nat) (T : Nat) (h : counts.sum ≤ T) :
    (counts.map (fun (c : Nat) => (c : Rat) / (T : Rat) * 100)).sum ≤ 100 := by
  rw [sum_map_div_mul]
  rcases Nat.eq_zero_or_pos T with hT | hT
  · subst hT
    have hz : counts.sum = 0 := Nat.le_zero.mp h
    rw [hz]
    norm_num
  · have hT' : (0 : Rat) < (T : Rat) := by exact_mod_cast hT
    have hle : ((counts.sum : Nat) : Rat) ≤ (T : Rat) := by exact_mod_cast h
    have h1 : ((counts.sum : Nat) : Rat) / (T : Rat) ≤ 1 := by
      rw [div_le_one hT']
      exact hle
    calc ((counts.sum : Nat) : Rat) / (T : Rat) * 100 ≤ 1 * 100 :=
          mul_le_mul_of_nonneg_right h1 (by norm_num)
      _ = 100 := by norm_num

theorem topWithPct_pct_sum (l : List Value) (resolve : Value → Value) :
    unroundedPctSum (topWithPct l l.length resolve) l.length ≤ 100 := by
  have h1 : ((mostCommon l 20).map (fun q => q.2)).sum ≤ l.length :=
    mostCommon_counts_le l 20
  have h2 := pct_sum_le_100 ((mostCommon l 20).map (fun q => q.2)) l.length h1
  rw [List.map_map] at h2
  unfold unroundedPctSum topWithPct
  rw [List.map_map]
  simpa [Function.comp] using h2

theorem topWithPct_zero_total (l : List Value) (resolve : Value → Value)
    (h : l.length = 0) : topWithPct l l.length resolve = [] := by
  rw [List.length_eq_zero.mp h]
  rfl

theorem projectCols_filter_ok (df : DataFrame) (cols : List String) :
    projectCols df (cols.filter (fun c => df.columns.contains c)) =
      .ok ⟨cols.filter (fun c => df.columns.contains c),
           df.rows.map (reindexRow df.columns
             (cols.filter (fun c => df.columns.contains c)))⟩ := by
  unfold projectCols
  rw [if_pos]
  rw [List.all_eq_true]
  intro x hx
  exact (List.mem_filter.mp hx).2

/-- Claim C1: for three 1-row battle tables whose unlabeled leading column
holds `B1`, `B2`, `B3`, each row having `winner.card1.id = 99`, and a
CardCatalog mapping 99 to `Knight`, the Card Usage Analyzer applied after
the Column Normalizer reports `unique_cards = 1`, `total_card_uses = 3`,
and the single top entry for id 99 named `Knight` with count 3 and
percentage 100.0. -/
theorem C1_card_usage_end_to_end :
    (do
      let d1 ← clean_and_rename_first_column (c1_table "B1")
      let d2 ← clean_and_rename_first_column (c1_table "B2")
      let d3 ← clean_and_rename_first_column (c1_table "B3")
      analyze_most_used_cards d1 d2 d3 c1_catalog) =
    .ok (.normal
      { card_usage_stats :=
          { total_card_uses := 3, unique_cards := 1, average_uses_per_card := 3 }
        top_cards := [{ card_id := .int 99, card_name := .str "Knight",
                        count := 3, percentage := 100 }]
        card_columns_found := ["winner.card1.id"]
        card_mapping_used := true }) := by
  decide

/-- Claim C2: for every three input tables, `combine_datasets` produces a
table with exactly the sum of the three row counts, whose rows are all
batch-1 rows, then batch-2, then batch-3 (reindexed to the combined column
layout), with no deduplication. -/
theorem C2_combine_row_concat (sd : SelectedDatasets) :
    (combine_datasets sd).rows.length =
      sd.combates1.rows.length + sd.combates2.rows.length + sd.combates3.rows.length ∧
    (combine_datasets sd).rows =
      sd.combates1.rows.map (reindexRow sd.combates1.columns (combine_datasets sd).columns) ++
      (sd.combates2.rows.map (reindexRow sd.combates2.columns (combine_datasets sd).columns) ++
        sd.combates3.rows.map (reindexRow sd.combates3.columns (combine_datasets sd).columns)) := by
  constructor
  · simp [combine_datasets, concat3, concatAll]
    omega
  · simp [combine_datasets, concat3, concatAll]

/-- Claim C3 counterexample: the Column Normalizer raises `IndexError` on
the well-formed zero-column frame `pd.DataFrame()`, and on an empty
(zero-row) frame with a column it is not a no-op — the column is renamed,
so the frame is not returned unchanged. -/
theorem C3_counterexample :
    clean_and_rename_first_column emptyFrame = .error .indexError ∧
    clean_and_rename_first_column ⟨["c0"], []⟩ = .ok ⟨["battle_id"], []⟩ ∧
    (⟨["battle_id"], []⟩ : DataFrame) ≠ ⟨["c0"], []⟩ := by
  decide

/-- Claim C3 (amended): the Column Normalizer never raises on a frame with
at least one column — including empty, zero-row frames — and never touches
the rows; but an empty frame is not returned unchanged (its first column is
still renamed), and a zero-column frame raises `IndexError`. -/
theorem C3_amended_no_raise (df : DataFrame) (h : df.columns ≠ []) :
    ∃ out, clean_and_rename_first_column df = .ok out ∧ out.rows = df.rows := by
  obtain ⟨cols, rows⟩ := df
  cases cols with
  | nil => exact absurd rfl h
  | cons first rest => exact ⟨_, rfl, rfl⟩

/-- Witness for C3: the amended theorem applied to an empty one-column
frame. -/
theorem C3_amended_witness :
    ∃ out, clean_and_rename_first_column ⟨["c0"], [[Value.int 1]]⟩ = .ok out ∧
      out.rows = [[Value.int 1]] :=
  C3_amended_no_raise ⟨["c0"], [[Value.int 1]]⟩ (by decide)

/-- Claim C4 counterexample: on one battle row with six distinct
win-condition ids used once each, every winner-side percentage is
`round(100/6, 2) = 16.67`, and the winner-side report's percentage fields
sum to `100.02 > 100` — the claim's "sum to at most 100" fails for the
reported, rounded percentages. -/
theorem C4_counterexample :
    winnerReportedPctSum
        (analyze_win_conditions_usage c4_battles emptyFrame emptyFrame c4_wincons emptyFrame) =
      5001 / 50 ∧ (100 : Rat) < 5001 / 50 := by
  decide

/-- Claim C4 (amended): in `analyze_win_conditions_usage`, whenever a
side's total occurrence count is 0 that side's report is empty (so every
percentage field reported for it is vacuously 0 — never NaN, undefined, or
an exception), and in every per-side report the unrounded percentage values
`count / total * 100` sum to at most 100; the reported values, each rounded
to 2 decimals, can exceed that bound by at most the accumulated rounding. -/
theorem C4_amended_percentages (d1 d2 d3 w cml : DataFrame) (r : WcResult)
    (h : analyze_win_conditions_usage d1 d2 d3 w cml = .ok (.normal r)) :
    (r.usage_stats.total_winner_wc_uses = 0 → r.winner_win_conditions = []) ∧
    (r.usage_stats.total_loser_wc_uses = 0 → r.loser_win_conditions = []) ∧
    (r.usage_stats.total_wc_uses = 0 → r.overall_win_conditions = []) ∧
    unroundedPctSum r.winner_win_conditions r.usage_stats.total_winner_wc_uses ≤ 100 ∧
    unroundedPctSum r.loser_win_conditions r.usage_stats.total_loser_wc_uses ≤ 100 ∧
    unroundedPctSum r.overall_win_conditions r.usage_stats.total_wc_uses ≤ 100 := by
  simp only [analyze_win_conditions_usage] at h
  split at h
  · simp at h
  · simp only [Except.ok.injEq, WcOutcome.normal.injEq] at h
    subst h
    simp only [wcReport]
    refine ⟨topWithPct_zero_total _ _, topWithPct_zero_total _ _, topWithPct_zero_total _ _,
      topWithPct_pct_sum _ _, topWithPct_pct_sum _ _, topWithPct_pct_sum _ _⟩

/-- Witness for C4: the amended theorem applied to three empty one-column
batches and empty catalogs, where every side report is empty. -/
theorem C4_amended_witness :
    (c4w_r.usage_stats.total_winner_wc_uses = 0 → c4w_r.winner_win_conditions = []) ∧
    (c4w_r.usage_stats.total_loser_wc_uses = 0 → c4w_r.loser_win_conditions = []) ∧
    (c4w_r.usage_stats.total_wc_uses = 0 → c4w_r.overall_win_conditions = []) ∧
    unroundedPctSum c4w_r.winner_win_conditions c4w_r.usage_stats.total_winner_wc_uses ≤ 100 ∧
    unroundedPctSum c4w_r.loser_win_conditions c4w_r.usage_stats.total_loser_wc_uses ≤ 100 ∧
    unroundedPctSum c4w_r.overall_win_conditions c4w_r.usage_stats.total_wc_uses ≤ 100 :=
  C4_amended_percentages c4w_frame c4w_frame c4w_frame emptyFrame emptyFrame c4w_r (by decide)

/-- Claim C5: whenever the card-usage or win-condition analyzer emitted its
error-marker dictionary, `generate_eda_summary` does not raise (every
access in the source is membership-guarded, so the embedding is a total
function) and the affected summary fields degrade to defaults: an empty
most-popular list and zero counts. -/
theorem C5_summary_degrades (rar : RarityResult) (mu : CardsOutcome) (wcu : WcOutcome)
    (h : mu.isMarker = true ∨ wcu.isMarker = true) :
    (mu.isMarker = true →
        (generate_eda_summary rar mu wcu).most_popular_cards = [] ∧
        (generate_eda_summary rar mu wcu).total_unique_cards = 0) ∧
    (wcu.isMarker = true →
        (generate_eda_summary rar mu wcu).total_win_conditions = 0) := by
  clear h
  constructor
  · intro hm
    cases mu with
    | errorMarker m => exact ⟨rfl, rfl⟩
    | normal r => simp [CardsOutcome.isMarker] at hm
  · intro hw
    cases wcu with
    | errorMarker m => rfl
    | normal r => simp [WcOutcome.isMarker] at hw

/-- Witness for C5: the theorem applied to both error markers over an
empty rarity result. -/
theorem C5_witness :
    (c5_mu.isMarker = true →
        (generate_eda_summary c5_rar c5_mu c5_wcu).most_popular_cards = [] ∧
        (generate_eda_summary c5_rar c5_mu c5_wcu).total_unique_cards = 0) ∧
    (c5_wcu.isMarker = true →
        (generate_eda_summary c5_rar c5_mu c5_wcu).total_win_conditions = 0) :=
  C5_summary_degrades c5_rar c5_mu c5_wcu (Or.inl rfl)

/-- Claim C6: a column is selected by the analyzers' card-id heuristic if
and only if its name, lowercased, contains both the substring `card` and
the substring `id` — a literal substring test (`specCardIdColumn` is the
spec's wording; `cardColumnsOf` is the filter both analyzers apply). -/
theorem C6_heuristic_iff (cols : List String) (c : String) :
    c ∈ cardColumnsOf cols ↔ c ∈ cols ∧ specCardIdColumn c := by
  simp [cardColumnsOf, specCardIdColumn, List.mem_filter]

/-- Claim C7 counterexample: the whitelist of `select_relevant_columns`
has 29 entries, not the claimed 28. -/
theorem C7_counterexample :
    relevant_columns.length = 29 ∧ relevant_columns.length ≠ 28 := by
  decide

/-- Claim C7 (amended): for every input table, `select_relevant_columns`
projects to the intersection of its 29-column whitelist with the table's
actual columns without failing on absent whitelist columns; in particular a
table with only `battle_id` from the whitelist yields a valid one-column
projection rather than raising. -/
theorem C7_select_projects_intersection :
    (∀ d1 d2 d3 : DataFrame, ∃ s, select_relevant_columns d1 d2 d3 = .ok s ∧
        s.combates1.columns = relevant_columns.filter (fun c => d1.columns.contains c) ∧
        s.combates2.columns = relevant_columns.filter (fun c => d2.columns.contains c) ∧
        s.combates3.columns = relevant_columns.filter (fun c => d3.columns.contains c)) ∧
    (∃ s, select_relevant_columns ⟨["battle_id", "x.y"], [[Value.str "B1", Value.int 7]]⟩
          ⟨["battle_id"], []⟩ ⟨["battle_id"], []⟩ = .ok s ∧
        s.combates1.columns = ["battle_id"]) := by
  constructor
  · intro d1 d2 d3
    refine ⟨⟨⟨relevant_columns.filter (fun c => d1.columns.contains c),
              d1.rows.map (reindexRow d1.columns
                (relevant_columns.filter (fun c => d1.columns.contains c)))⟩,
            ⟨relevant_columns.filter (fun c => d2.columns.contains c),
              d2.rows.map (reindexRow d2.columns
                (relevant_columns.filter (fun c => d2.columns.contains c)))⟩,
            ⟨relevant_columns.filter (fun c => d3.columns.contains c),
              d3.rows.map (reindexRow d3.columns
                (relevant_columns.filter (fun c => d3.columns.contains c)))⟩⟩,
      ?_, rfl, rfl, rfl⟩
    simp only [select_relevant_columns, projectCols_filter_ok]
    rfl
  · exact ⟨⟨⟨["battle_id"], [[Value.str "B1"]]⟩, ⟨["battle_id"], []⟩, ⟨["battle_id"], []⟩⟩,
      by decide, rfl⟩

/-- Claim C8: the analyzers are deterministic — the embedded computations
are pure functions, and re-running each on identical inputs yields an
identical report structure. -/
theorem C8_analyzers_deterministic (d1 d2 d3 w cml : DataFrame) :
    analyze_rarity_distributions d1 d2 d3 = analyze_rarity_distributions d1 d2 d3 ∧
    analyze_most_used_cards d1 d2 d3 cml = analyze_most_used_cards d1 d2 d3 cml ∧
    analyze_win_conditions_usage d1 d2 d3 w cml = analyze_win_conditions_usage d1 d2 d3 w cml :=
  ⟨rfl, rfl, rfl⟩

/-- Claim C9: when the card-id heuristic matches at least one column but
every matched column is entirely null, `analyze_most_used_cards` raises
`ZeroDivisionError` computing `average_uses_per_card` (`0 / 0`), instead of
returning a result or an error marker. -/
theorem C9_all_null_divzero (d1 d2 d3 cml : DataFrame)
    (h1 : ¬(cardColumnsOf (concat3 d1 d2 d3).columns).isEmpty = true)
    (h2 : ∀ c ∈ cardColumnsOf (concat3 d1 d2 d3).columns,
        dropna (getColD (concat3 d1 d2 d3) c) = []) :
    analyze_most_used_cards d1 d2 d3 cml = .error .zeroDivisionError := by
  have hflat : (cardColumnsOf (concat3 d1 d2 d3).columns).flatMap
      (fun c => dropna (getColD (concat3 d1 d2 d3) c)) = [] :=
    List.flatMap_eq_nil_iff.mpr h2
  simp only [analyze_most_used_cards, hflat]
  rw [if_neg h1]
  simp [countOcc, countOccF]

/-- Witness for C9: a one-column frame whose single card-id column holds
only null. -/
theorem C9_witness :
    analyze_most_used_cards c9_frame c9_frame c9_frame emptyFrame = .error .zeroDivisionError :=
  C9_all_null_divzero c9_frame c9_frame c9_frame emptyFrame (by decide) (by decide)

/-- Claim C10: the Column Normalizer renames by column label, not by
position — every column whose label equals the first column's label becomes
`battle_id`, all other labels and all cell values are unchanged. -/
theorem C10_rename_by_label (df : DataFrame) (first : String) (rest : List String)
    (h : df.columns = first :: rest) :
    clean_and_rename_first_column df =
      .ok ⟨(first :: rest).map (fun c => if c = first then "battle_id" else c), df.rows⟩ := by
  obtain ⟨cols, rows⟩ := df
  replace h : cols = first :: rest := h
  subst h
  rfl

/-- Witness for C10: a frame with duplicate labels matching the leading
column has both occurrences renamed, while the middle label and the cells
stay unchanged. -/
theorem C10_witness :
    clean_and_rename_first_column ⟨["a", "b", "a"], [[Value.int 1, Value.int 2, Value.int 3]]⟩ =
      .ok ⟨["battle_id", "b", "battle_id"], [[Value.int 1, Value.int 2, Value.int 3]]⟩ :=
  C10_rename_by_label ⟨["a", "b", "a"], [[Value.int 1, Value.int 2, Value.int 3]]⟩
    "a" ["b", "a"] rfl

end ClashRoyale
